import Mathlib

/-!
Verification of the FdCAN driver core (src/fdcan.rs, src/fdcan/config.rs) of the
stm32g4xx-hal repository, against its natural-language specification.

The driver code is embedded shallowly: hardware registers and the message-RAM
region become explicit record states, register `modify`/`write` operations become
record updates, and the driver functions become pure state transformers.  Panics
(`todo!()`, `unreachable!()`, out-of-bounds slicing) are modelled as an explicit
trap outcome.  Machine integers (`u8`, `u16`, `u32`) are modelled as `Nat`; the
only places where truncation matters are the explicit `&` masks of the source,
which are kept as `&&&` on `Nat`.

Parts of the repository referenced by src/fdcan.rs but not present under src/
(the modules `id`, `frame`, `message_ram`, `interrupt`) are modelled from the
spec; each such definition carries a doc comment starting `Modelled from the
spec:`.
-/

namespace FdcanModel

/-! ## Bit timing (src/fdcan/config.rs) -/

/-- Embeds `NominalBitTiming` (src/fdcan/config.rs lines 17-32).  The Rust fields are
`prescaler : u16` and `seg1, seg2, sync_jump_width : u8`; they are modelled as
`Nat`.  The hardware field widths are applied by the encoders below, exactly as
in the source. -/
structure NominalBitTiming where
  prescaler : Nat
  seg1 : Nat
  seg2 : Nat
  sync_jump_width : Nat

/-- Embeds `NominalBitTiming::nbrp` (config.rs line 35): `self.prescaler & 0x1FF`. -/
def NominalBitTiming.nbrp (t : NominalBitTiming) : Nat := t.prescaler &&& 0x1FF

/-- Embeds `NominalBitTiming::ntseg1` (config.rs line 39): `self.seg1 & 0xFF`. -/
def NominalBitTiming.ntseg1 (t : NominalBitTiming) : Nat := t.seg1 &&& 0xFF

/-- Embeds `NominalBitTiming::ntseg2` (config.rs line 43): `self.seg2 & 0x7F`. -/
def NominalBitTiming.ntseg2 (t : NominalBitTiming) : Nat := t.seg2 &&& 0x7F

/-- Embeds `NominalBitTiming::nsjw` (config.rs line 47): `self.sync_jump_width & 0x7F`. -/
def NominalBitTiming.nsjw (t : NominalBitTiming) : Nat := t.sync_jump_width &&& 0x7F

/-- Embeds `DataBitTiming` (src/fdcan/config.rs lines 68-84). -/
structure DataBitTiming where
  transceiver_delay_compensation : Bool
  prescaler : Nat
  seg1 : Nat
  seg2 : Nat
  sync_jump_width : Nat

/-- Embeds `DataBitTiming::dbrp` (config.rs line 93): `self.prescaler & 0x1F`. -/
def DataBitTiming.dbrp (t : DataBitTiming) : Nat := t.prescaler &&& 0x1F

/-- Embeds `DataBitTiming::dtseg1` (config.rs line 97): `self.seg1 & 0x1F`. -/
def DataBitTiming.dtseg1 (t : DataBitTiming) : Nat := t.seg1 &&& 0x1F

/-- Embeds `DataBitTiming::dtseg2` (config.rs line 101): `self.seg2 & 0x0F`. -/
def DataBitTiming.dtseg2 (t : DataBitTiming) : Nat := t.seg2 &&& 0x0F

/-- Embeds `DataBitTiming::dsjw` (config.rs line 105): `self.sync_jump_width & 0x0F`. -/
def DataBitTiming.dsjw (t : DataBitTiming) : Nat := t.sync_jump_width &&& 0x0F

/-! ## Mailboxes (src/fdcan.rs lines 1420-1452) -/

/-- The three transmit mailboxes / receive-FIFO slots (`Mailbox` enum,
fdcan.rs lines 1422-1429; the Rust variants are `_0`, `_1`, `_2`). -/
inductive Mailbox where
  | m0
  | m1
  | m2
deriving DecidableEq

/-- Embeds `impl From<Mailbox> for u8` (fdcan.rs lines 1441-1446): the discriminant. -/
def Mailbox.toU8 : Mailbox → Nat
  | .m0 => 0
  | .m1 => 1
  | .m2 => 2

/-- Embeds `Mailbox::new` (fdcan.rs lines 1431-1439): matches on `idx & 0b11`; the
`0b11` case is `unreachable!()`, an execution trap, modelled as `none`. -/
def Mailbox.new (idx : Nat) : Option Mailbox :=
  match idx &&& 0b11 with
  | 0 => some .m0
  | 1 => some .m1
  | 2 => some .m2
  | _ => none

/-! ## Identifiers

The module src/fdcan/id.rs is referenced by src/fdcan.rs but is not under
src/, so the identifier register is modelled from the spec. -/

/-- Modelled from the spec: `IdReg` from src/fdcan/id.rs (the file is not under
src/).  Spec §3: "Identifier: tagged union {Standard, Extended}; ordering
encodes CAN bus arbitration priority"; §4.4: "Priority ordering must match the
wire protocol's dominant-bit-wins rule (lower numeric standard identifier =
higher priority)".  We represent an identifier by its arbitration-priority
rank `prio`: `a`'s `prio ≤ b`'s `prio` is the spec's ordering "`a` has
lower-or-equal bus-arbitration priority than `b`" (so a lower numeric standard
identifier maps to a greater `prio`).  Only this ordering is consumed by the
transmit engine. -/
structure IdReg where
  prio : Nat
deriving DecidableEq

/-! ## Transmit engine (src/fdcan.rs, `Tx`)

The registers read by the transmit path are modelled as a snapshot record:
`txfqs` (queue-full flag `tfqf` and put index `tfqpi`), `txbrp` (pending
request bitmap `trp`), `txbto` (transmission-occurred bitmap), and the
tx message-RAM headers read back by `is_available` (the header-to-`IdReg`
decoding of src/fdcan/frame.rs is not under src/ and is modelled, per the
spec's `TxFrameHeader`, as the stored identifier itself). -/
structure TxRegs where
  tfqf : Bool
  tfqpi : Nat
  trp : Nat
  txbto : Nat
  headers : Mailbox → IdReg

/-- Embeds `Tx::tx_queue_is_full` (fdcan.rs line 1130): reads `txfqs.tfqf`. -/
def tx_queue_is_full (s : TxRegs) : Bool := s.tfqf

/-- Embeds `Tx::has_pending_frame` (fdcan.rs lines 1232-1241): converts the mailbox to
its `u8` index and tests `txbrp.trp & idx != 0`.  Note that the source uses the
mailbox index itself as the mask (not `1 << idx`), so mailbox 0 tests
`trp & 0`. -/
def has_pending_frame (s : TxRegs) (idx : Mailbox) : Bool :=
  s.trp &&& idx.toU8 != 0

/-- Embeds `Tx::is_available` (fdcan.rs lines 1137-1151): true when the mailbox has no
pending frame, or when the stored frame's identifier satisfies `id > old_id`
in the `IdReg` ordering (i.e. the new frame has strictly higher
bus-arbitration priority). -/
def is_available (s : TxRegs) (idx : Mailbox) (id : IdReg) : Bool :=
  if has_pending_frame s idx then
    let old_id := s.headers idx
    if id.prio ≤ old_id.prio then false else true
  else true

/-- Embeds `Tx::abort` (fdcan.rs lines 1209-1229): when the mailbox has a pending
frame, writes the cancel request and busy-waits until `txbcf` reports the
request finished, then returns `txbto.to & idx == 0` (true iff no transmission
occurred, i.e. the abort won the race).  The unbounded poll loop is modelled as
having exited, reading the state's `txbto` snapshot (the spec documents the
wait as an unbounded handshake).  The source again uses the mailbox index as
the bitmask in both reads. -/
def abort (s : TxRegs) (idx : Mailbox) : Bool :=
  if has_pending_frame s idx then
    s.txbto &&& idx.toU8 == 0
  else false

/-- Result of `Tx::transmit`: `wouldBlock` is `Err(nb::Error::WouldBlock)`;
`accepted mb displaced` is `Ok(pending_frame)` with the frame written into
mailbox `mb` (`displaced = some ()` when a pending frame was aborted and
displaced); `trap` models the `unreachable!()` panic inside `Mailbox::new`. -/
inductive TransmitResult where
  | wouldBlock
  | accepted (mb : Mailbox) (displaced : Option Unit)
  | trap
deriving DecidableEq

/-- Embeds `Tx::transmit` (fdcan.rs lines 1018-1076).  When the queue is full, scan
mailboxes 0, 1, 2 with `is_available` and abort-then-overwrite the first
candidate (`Some(())` iff the abort succeeded); when no candidate exists,
return `WouldBlock`.  When the queue is not full, write into the slot named by
the raw put-index bits `txfqs.tfqpi` via `Mailbox::new`.  The payload write and
the `txbar` add-request are not observed by any claim and are elided; the
function returns which mailbox was written and the displacement report. -/
def transmit (s : TxRegs) (id : IdReg) : TransmitResult :=
  if tx_queue_is_full s then
    if is_available s .m0 id then
      .accepted .m0 (if abort s .m0 then some () else none)
    else if is_available s .m1 id then
      .accepted .m1 (if abort s .m1 then some () else none)
    else if is_available s .m2 id then
      .accepted .m2 (if abort s .m2 then some () else none)
    else
      .wouldBlock
  else
    match Mailbox.new s.tfqpi with
    | some mb => .accepted mb none
    | none => .trap

/-! ## Receive engine (src/fdcan.rs, `Rx`) -/

/-- Modelled from the spec: a receive-FIFO element of the message RAM
(src/fdcan/message_ram.rs and the `RxFrameInfo` decoding of
src/fdcan/frame.rs are not under src/).  Per spec §3, `RxFrameInfo` carries
"identifier, length, timestamp, filter-match index, as stamped by hardware";
only the length (`len`, in bytes, 0-64) is consumed by the claims, so the
element is represented post-decode by its length field together with its
payload area, the 16 32-bit data words of the slot (64 bytes).  Each entry of
`data` is one `u32` word. -/
structure RxFifoElement where
  len : Nat
  data : List Nat

/-- Register/RAM snapshot read by one `Rx<I, MODE, FIFONR>` half: the FIFO
status register fields `fXfl` (fill level), `fXgi` (get index), `rfXl`
(message-lost/overrun flag), the FIFO's slot array `fxsa`, and a trace of the
writes to the FIFO acknowledge register `rxfXa` (each `release_mailbox` call
appends the index it wrote, so the trace length counts read-index advances). -/
structure RxState where
  fillLevel : Nat
  getIndex : Nat
  lostFlag : Bool
  fxsa : Mailbox → RxFifoElement
  ackWrites : List Nat

/-- Embeds `Rx::rx_fifo_is_empty` (fdcan.rs lines 1386-1393): returns
`fXfl.bits() != 0`, i.e. the fill level being non-zero (despite the name and
its doc comment, the body is true exactly when the FIFO holds messages). -/
def rx_fifo_is_empty (s : RxState) : Bool := s.fillLevel != 0

/-- Embeds `Rx::has_overrun` (fdcan.rs lines 1375-1382): reads the `rfXl`
message-lost flag. -/
def has_overrun (s : RxState) : Bool := s.lostFlag

/-- Embeds `Rx::release_mailbox` (fdcan.rs lines 1396-1403): writes the slot index to
the FIFO acknowledge register `rxfXa`, advancing the hardware read index. -/
def release_mailbox (s : RxState) (idx : Mailbox) : RxState :=
  { s with ackWrites := s.ackWrites ++ [idx.toU8] }

/-- Embeds `Rx::get_rx_mailbox` (fdcan.rs lines 1406-1414): feeds the raw hardware
get-index bits `fXgi` to `Mailbox::new` (whose `0b11` case is a trap). -/
def get_rx_mailbox (s : RxState) : Option Mailbox :=
  Mailbox.new s.getIndex

/-- Result of `Rx::receive`: `wouldBlock` is `Err(nb::Error::WouldBlock)`;
`noOverrun r` / `overrun r` are `Ok(ReceiveOverrun::NoOverrun(r))` /
`Ok(ReceiveOverrun::Overrun(r))`; `trap` models a panic (the `unreachable!()`
in `Mailbox::new`, or the out-of-bounds slice `data[0..len]` when `len`
exceeds the 16-word data array). -/
inductive RxOutcome (R : Type) where
  | wouldBlock
  | noOverrun (r : R)
  | overrun (r : R)
  | trap
deriving DecidableEq

/-- Embeds `Rx::receive` (fdcan.rs lines 1338-1362).  The branch condition is the
source's `if !self.rx_fifo_is_empty()`.  Inside the branch: read the get
index, locate the slot, decode the header, call the handler with
`&mailbox.data[0..header.len as usize]` — a slice of `header.len` 32-bit
*words* of the data array (a trap if `len` exceeds the array length), release
the mailbox, then wrap the result: `NoOverrun` when `has_overrun()` is true,
`Overrun` otherwise.  The handler `f` receives the decoded length and the
sliced payload view and its result is returned. -/
def receive {R : Type} (s : RxState) (f : Nat → List Nat → R) :
    RxOutcome R × RxState :=
  if !(rx_fifo_is_empty s) then
    match get_rx_mailbox s with
    | none => (.trap, s)
    | some mbox =>
      let el := s.fxsa mbox
      if el.len ≤ el.data.length then
        let result := f el.len (el.data.take el.len)
        let s1 := release_mailbox s mbox
        if has_overrun s1 then
          (.noOverrun result, s1)
        else
          (.overrun result, s1)
      else
        (.trap, s)
  else
    (.wouldBlock, s)

/-! ## Configuration surface (src/fdcan/config.rs and the ConfigMode impl of
src/fdcan.rs) -/

/-- Embeds `FrameTransmissionConfig` (config.rs lines 129-136). -/
inductive FrameTransmissionConfig where
  | classicCanOnly
  | allowFdCan
  | allowFdCanAndBRS
deriving DecidableEq

/-- Embeds `TimestampSource` (config.rs lines 217-225); the prescaler payload
(`TimestampPrescaler`, discriminants 1-16) is modelled by its numeric value. -/
inductive TimestampSource where
  | none
  | prescaler (p : Nat)
  | fromTIM3
deriving DecidableEq

/-- Embeds `FdCanConfig` (config.rs lines 230-271).  `ClockDivider` (config.rs lines
141-174) is modelled by its discriminant (the `pdiv` bit pattern 0b0000-0b1111)
and the `Interrupts` bitflags (src/fdcan/interrupt.rs, not under src/) by the
raw `u32` bit set `interrupt_line_config`. -/
structure FdCanConfig where
  nbtr : NominalBitTiming
  dbtr : DataBitTiming
  automatic_retransmit : Bool
  transmit_pause : Bool
  frame_transmit : FrameTransmissionConfig
  non_iso_mode : Bool
  edge_filtering : Bool
  protocol_exception_handling : Bool
  clock_divider : Nat
  interrupt_line_config : Nat
  timestamp_source : TimestampSource

/-- The CCCR control register, by named bit fields (only the fields the driver
touches are modelled).  A svd2rust `modify` updates single fields; a `write`
rebuilds the whole register from its reset value. -/
structure CCCR where
  init : Bool
  cce : Bool
  dar : Bool
  txp : Bool
  mon : Bool
  niso : Bool
  efbi : Bool
  pxhd : Bool
  fdoe : Bool
  brse : Bool
deriving DecidableEq

/-- CCCR reset value (RM0440: 0x0000_0001, i.e. INIT set and every other
modelled field clear); this is the base a full-register `write` starts from. -/
def cccrReset : CCCR :=
  { init := true, cce := false, dar := false, txp := false, mon := false,
    niso := false, efbi := false, pxhd := false, fdoe := false, brse := false }

/-- The NBTP nominal-bit-timing register fields. -/
structure NbtpReg where
  nbrp : Nat
  ntseg1 : Nat
  ntseg2 : Nat
  nsjw : Nat
deriving DecidableEq

/-- The DBTP data-bit-timing register fields. -/
structure DbtpReg where
  dbrp : Nat
  dtseg1 : Nat
  dtseg2 : Nat
  dsjw : Nat
deriving DecidableEq

/-- The TSCC timestamp-counter-configuration register fields. -/
structure TsccReg where
  tcp : Nat
  tss : Nat
deriving DecidableEq

/-- The configuration registers written by the ConfigMode setters of
src/fdcan.rs: CCCR, NBTP, DBTP, the interrupt-line-select register ILS, the
clock-divider register CKDIV (its single `pdiv` field) and TSCC. -/
structure Registers where
  cccr : CCCR
  nbtp : NbtpReg
  dbtp : DbtpReg
  ils : Nat
  ckdiv : Nat
  tscc : TsccReg
deriving DecidableEq

/-- The state held by `FdCan<I, ConfigMode>`: the stored configuration
snapshot `config` (`FdCanControl.config`) plus the peripheral registers. -/
structure Ctrl where
  config : FdCanConfig
  regs : Registers

/-- Embeds `FdCan::set_nominal_bit_timing` (fdcan.rs lines 568-582): stores the
snapshot field `nbtr`, then writes NBTP from the four masked encoders. -/
def set_nominal_bit_timing (c : Ctrl) (btr : NominalBitTiming) : Ctrl :=
  { config := { c.config with nbtr := btr },
    regs := { c.regs with
      nbtp := { nbrp := btr.nbrp, ntseg1 := btr.ntseg1,
                ntseg2 := btr.ntseg2, nsjw := btr.nsjw } } }

/-- Embeds `FdCan::set_data_bit_timing` (fdcan.rs lines 587-601): stores the snapshot
field `dbtr`, then writes DBTP from the four masked encoders. -/
def set_data_bit_timing (c : Ctrl) (btr : DataBitTiming) : Ctrl :=
  { config := { c.config with dbtr := btr },
    regs := { c.regs with
      dbtp := { dbrp := btr.dbrp, dtseg1 := btr.dtseg1,
                dtseg2 := btr.dtseg2, dsjw := btr.dsjw } } }

/-- Embeds `FdCan::set_automatic_retransmit` (fdcan.rs lines 610-614):
a `cccr` modify setting the DAR bit to `!enabled`, then stores the snapshot field. -/
def set_automatic_retransmit (c : Ctrl) (enabled : Bool) : Ctrl :=
  { config := { c.config with automatic_retransmit := enabled },
    regs := { c.regs with cccr := { c.regs.cccr with dar := !enabled } } }

/-- Embeds `FdCan::set_transmit_pause` (fdcan.rs lines 619-623): the body performs
a `cccr` modify setting the DAR bit to `!enabled` — it writes the DAR bit (the automatic
retransmit disable field), not the TXP transmit-pause bit — then stores the
snapshot field `transmit_pause`. -/
def set_transmit_pause (c : Ctrl) (enabled : Bool) : Ctrl :=
  { config := { c.config with transmit_pause := enabled },
    regs := { c.regs with cccr := { c.regs.cccr with dar := !enabled } } }

/-- Embeds `FdCan::set_non_iso_mode` (fdcan.rs lines 628-632):
a `cccr` modify setting the NISO bit to `!enabled`, then stores the snapshot field. -/
def set_non_iso_mode (c : Ctrl) (enabled : Bool) : Ctrl :=
  { config := { c.config with non_iso_mode := enabled },
    regs := { c.regs with cccr := { c.regs.cccr with niso := !enabled } } }

/-- Embeds `FdCan::set_edge_filtering` (fdcan.rs lines 637-641):
a `cccr` modify setting the EFBI bit to `!enabled`, then stores the snapshot field. -/
def set_edge_filtering (c : Ctrl) (enabled : Bool) : Ctrl :=
  { config := { c.config with edge_filtering := enabled },
    regs := { c.regs with cccr := { c.regs.cccr with efbi := !enabled } } }

/-- Embeds `FdCan::set_frame_transmit` (fdcan.rs lines 646-657): maps the mode to the
`(fdoe, brse)` pair, `cccr.modify` of both bits, then stores the snapshot
field. -/
def set_frame_transmit (c : Ctrl) (fts : FrameTransmissionConfig) : Ctrl :=
  let fb : Bool × Bool :=
    match fts with
    | .classicCanOnly => (false, false)
    | .allowFdCan => (true, false)
    | .allowFdCanAndBRS => (true, true)
  { config := { c.config with frame_transmit := fts },
    regs := { c.regs with
      cccr := { c.regs.cccr with fdoe := fb.1, brse := fb.2 } } }

/-- Embeds `FdCan::set_interrupt_line_config` (fdcan.rs lines 662-668): full write of
the ILS register with the interrupt bit set, then stores the snapshot field. -/
def set_interrupt_line_config (c : Ctrl) (l0int : Nat) : Ctrl :=
  { config := { c.config with interrupt_line_config := l0int },
    regs := { c.regs with ils := l0int } }

/-- Embeds `FdCan::set_protocol_exception_handling` (fdcan.rs lines 672-678): the body
performs a full-register `cccr` write setting only the PXHD bit to `enabled` — a full-register write, which resets
every other CCCR field to its reset value — then stores the snapshot field. -/
def set_protocol_exception_handling (c : Ctrl) (enabled : Bool) : Ctrl :=
  { config := { c.config with protocol_exception_handling := enabled },
    regs := { c.regs with cccr := { cccrReset with pxhd := enabled } } }

/-- Embeds `FdCan::set_clock_divider` (fdcan.rs lines 682-688): full write of the
CKDIV register's `pdiv` field with the divider's discriminant, then stores the
snapshot field. -/
def set_clock_divider (c : Ctrl) (div : Nat) : Ctrl :=
  { config := { c.config with clock_divider := div },
    regs := { c.regs with ckdiv := div } }

/-- Embeds `FdCan::set_timestamp_counter_source` (fdcan.rs lines 692-703): maps the
source to `(tcp, tss)`, full write of TSCC, then stores the snapshot field. -/
def set_timestamp_counter_source (c : Ctrl) (select : TimestampSource) : Ctrl :=
  let pair : Nat × Nat :=
    match select with
    | .none => (0, 0b00)
    | .prescaler p => (p, 0b01)
    | .fromTIM3 => (0, 0b10)
  { config := { c.config with timestamp_source := select },
    regs := { c.regs with tscc := { tcp := pair.1, tss := pair.2 } } }

/-- Embeds `FdCan::apply_config` (fdcan.rs lines 543-553): calls, in order,
`set_data_bit_timing`, `set_nominal_bit_timing`, `set_automatic_retransmit`,
`set_transmit_pause`, `set_frame_transmit`, `set_interrupt_line_config`,
`set_non_iso_mode`, `set_edge_filtering`,
`set_protocol_exception_handling` — and no other setter. -/
def apply_config (c : Ctrl) (config : FdCanConfig) : Ctrl :=
  let c := set_data_bit_timing c config.dbtr
  let c := set_nominal_bit_timing c config.nbtr
  let c := set_automatic_retransmit c config.automatic_retransmit
  let c := set_transmit_pause c config.transmit_pause
  let c := set_frame_transmit c config.frame_transmit
  let c := set_interrupt_line_config c config.interrupt_line_config
  let c := set_non_iso_mode c config.non_iso_mode
  let c := set_edge_filtering c config.edge_filtering
  set_protocol_exception_handling c config.protocol_exception_handling

/-- Embeds `FdCan::leave_init_mode` (fdcan.rs lines 468-475): re-applies the stored
configuration snapshot via `apply_config(self.control.config)`, then clears
CCE and clears INIT (the busy-wait for the hardware to confirm INIT cleared is
a handshake on the same bit and adds no state change to the model). -/
def leave_init_mode (c : Ctrl) : Ctrl :=
  let c := apply_config c c.config
  let c := { c with regs := { c.regs with
    cccr := { c.regs.cccr with cce := false } } }
  { c with regs := { c.regs with
    cccr := { c.regs.cccr with init := false } } }

/-! ## Unimplemented operations (src/fdcan.rs) -/

/-- Outcome of an operation that may be unimplemented: `ok` is a normal
return, `unsupportedError` is an explicit "unsupported" error value returned
to the caller, and `trap` is an execution trap (a panic, e.g. `todo!()`). -/
inductive UnimplOutcome (A : Type) where
  | ok (a : A)
  | unsupportedError
  | trap
deriving DecidableEq

/-- Embeds `FdCan::set_test_mode` (fdcan.rs lines 240-242): the body is `todo!()`,
which panics — an execution trap.  `into_test_mode` (lines 524-529) calls it
with `true` as its first step. -/
def set_test_mode (_enabled : Bool) : UnimplOutcome Unit := .trap

/-- Embeds `FdCan::clear_request_completed_flag` (fdcan.rs lines 333-349): the body is
`todo!()`, which panics — an execution trap (the intended implementation is
present only as commented-out code). -/
def clear_request_completed_flag : UnimplOutcome (Option Mailbox) := .trap

/-- Recognizer for the would-block result of `transmit` (used to state that a
result is, or is not, `Err(nb::Error::WouldBlock)` without a negation). -/
def TransmitResult.isWouldBlock : TransmitResult → Bool
  | .wouldBlock => true
  | _ => false

/-- First step of `FdCan::into_test_mode` (fdcan.rs lines 524-529): the call
`self.set_test_mode(true)`. -/
def into_test_mode : UnimplOutcome Unit := set_test_mode true

/-! ## Concrete fixtures -/

/-- A receive-FIFO slot holding a frame whose decoded length is 8 bytes; the
data area is the full 16-word (64-byte) slot. -/
def sampleElement : RxFifoElement := { len := 8, data := List.range 16 }

/-- A receive-FIFO register snapshot with the given fill level and
message-lost flag, get index 0, every slot holding `sampleElement`, and an
empty acknowledge-write trace. -/
def mkRxState (fill : Nat) (lost : Bool) : RxState :=
  { fillLevel := fill, getIndex := 0, lostFlag := lost,
    fxsa := fun _ => sampleElement, ackWrites := [] }

/-- A handler that returns the number of 32-bit words in the payload view it
was given. -/
def payloadWordCount : Nat → List Nat → Nat := fun _ payload => payload.length

/-- A handler that returns the size in bytes of the payload view it was given
(4 bytes per 32-bit word). -/
def payloadByteCount : Nat → List Nat → Nat := fun _ payload => 4 * payload.length

/-- A transmit register snapshot in which the hardware reports the queue full,
all three TXBRP pending-request bits are set (TRP = 0b111), no transmission
has occurred, and every mailbox header decodes to priority rank 5. -/
def fullTxState : TxRegs :=
  { tfqf := true, tfqpi := 0, trp := 7, txbto := 0, headers := fun _ => { prio := 5 } }

/-- A transmit register snapshot with a non-full queue whose hardware put
index reads 3 (both low bits set). -/
def txPut3 : TxRegs :=
  { tfqf := false, tfqpi := 3, trp := 0, txbto := 0, headers := fun _ => { prio := 5 } }

/-- A receive register snapshot whose hardware get index reads 3 (both low
bits set) on the path where the slot is fetched. -/
def rxGet3 : RxState :=
  { fillLevel := 0, getIndex := 3, lostFlag := false,
    fxsa := fun _ => sampleElement, ackWrites := [] }

/-- A concrete configuration snapshot: clock divider 1 (divide by 2),
automatic retransmit disabled, protocol exception handling enabled. -/
def cfgX : FdCanConfig :=
  { nbtr := { prescaler := 1, seg1 := 2, seg2 := 3, sync_jump_width := 4 },
    dbtr := { transceiver_delay_compensation := false, prescaler := 1,
              seg1 := 2, seg2 := 3, sync_jump_width := 4 },
    automatic_retransmit := false, transmit_pause := false,
    frame_transmit := .classicCanOnly, non_iso_mode := false,
    edge_filtering := false, protocol_exception_handling := true,
    clock_divider := 1, interrupt_line_config := 0,
    timestamp_source := .none }

/-- All-reset configuration registers. -/
def regs0 : Registers :=
  { cccr := cccrReset, nbtp := { nbrp := 0, ntseg1 := 0, ntseg2 := 0, nsjw := 0 },
    dbtp := { dbrp := 0, dtseg1 := 0, dtseg2 := 0, dsjw := 0 },
    ils := 0, ckdiv := 0, tscc := { tcp := 0, tss := 0 } }

/-- A ConfigMode handle over the reset registers with `cfgX` stored. -/
def ctrl0 : Ctrl := { config := cfgX, regs := regs0 }

/-- A ConfigMode handle whose CCCR currently has DAR and NISO set (and TXP
clear). -/
def ctrlA : Ctrl :=
  { config := cfgX,
    regs := { regs0 with cccr := { cccrReset with dar := true, niso := true } } }

/-! ## Helper lemmas -/

/-- Masking to a field width is idempotent: applying the same mask to an
already-masked value returns it unchanged. -/
theorem and_mask_idem (x m : Nat) : (x &&& m) &&& m = x &&& m := by
  rw [Nat.and_assoc, Nat.and_self]

/-- Case of `Mailbox.new` where the masked argument is 0. -/
theorem mailbox_new_mask0 (idx : Nat) (h : idx &&& 0b11 = 0) :
    Mailbox.new idx = some Mailbox.m0 := by
  unfold Mailbox.new
  rw [h]

/-- Case of `Mailbox.new` where the masked argument is 1. -/
theorem mailbox_new_mask1 (idx : Nat) (h : idx &&& 0b11 = 1) :
    Mailbox.new idx = some Mailbox.m1 := by
  unfold Mailbox.new
  rw [h]

/-- Case of `Mailbox.new` where the masked argument is 2. -/
theorem mailbox_new_mask2 (idx : Nat) (h : idx &&& 0b11 = 2) :
    Mailbox.new idx = some Mailbox.m2 := by
  unfold Mailbox.new
  rw [h]

/-- Case of `Mailbox.new` where the masked argument is 3: the trap. -/
theorem mailbox_new_mask3 (idx : Nat) (h : idx &&& 0b11 = 3) :
    Mailbox.new idx = none := by
  unfold Mailbox.new
  rw [h]

/-- Mailbox 0 never tests as pending: the source masks TXBRP with the mailbox
index itself, which is 0 for mailbox 0. -/
theorem has_pending_frame_m0 (s : TxRegs) :
    has_pending_frame s Mailbox.m0 = false := by
  simp [has_pending_frame, Mailbox.toU8]

/-- Mailbox 0 always tests as available to `transmit`, whatever it stores. -/
theorem is_available_m0 (s : TxRegs) (id : IdReg) :
    is_available s Mailbox.m0 id = true := by
  simp [is_available, has_pending_frame_m0]

/-! ## Claim theorems -/

/-- C1.  The claim states that `receive` on a FIFO with pending-element count
zero returns would-block with no side effect, and on a non-zero count
processes one element and advances the read index once.  The code does the
opposite: `rx_fifo_is_empty` returns `fill != 0`, and `receive` branches on
its negation, so with fill level 0 the handler is invoked (here returning the
8-word payload count) and one acknowledge-register write (read-index advance)
is performed, while with fill level 1 the call returns would-block and leaves
the state untouched. -/
theorem C1_receive_empty_check_inverted :
    (receive (mkRxState 0 false) payloadWordCount).1 = RxOutcome.overrun 8 ∧
    (receive (mkRxState 0 false) payloadWordCount).2.ackWrites = [0] ∧
    (receive (mkRxState 1 false) payloadWordCount).1 = RxOutcome.wouldBlock ∧
    (receive (mkRxState 1 false) payloadWordCount).2.ackWrites = [] := by
  refine ⟨rfl, rfl, rfl, rfl⟩

/-- C3.  The claim states that a successful `receive` result is wrapped as
`Overrun` exactly when the hardware overrun flag read after releasing the slot
is set, and `NoOverrun` exactly when it is clear.  The code swaps the two
arms: with the message-lost flag set the result is `NoOverrun`, and with it
clear the result is `Overrun`. -/
theorem C3_overrun_wrapping_inverted :
    has_overrun (mkRxState 0 true) = true ∧
    (receive (mkRxState 0 true) payloadWordCount).1 = RxOutcome.noOverrun 8 ∧
    has_overrun (mkRxState 0 false) = false ∧
    (receive (mkRxState 0 false) payloadWordCount).1 = RxOutcome.overrun 8 := by
  refine ⟨rfl, rfl, rfl, rfl⟩

/-- C4.  The claim states that when the decoded header reports length L bytes,
the handler receives a payload view of exactly L bytes (an element of length 8
yields an 8-byte view).  The code slices `data[0 .. header.len]`, i.e.
`header.len` 32-bit words: for the stored element of length 8 the handler
receives an 8-word view of 32 bytes, not 8.  Moreover, on a FIFO whose fill
level is 1 (the claim's non-empty premise) the handler is not invoked at all —
the call returns would-block because of the inverted emptiness check. -/
theorem C4_payload_view_sliced_in_words :
    sampleElement.len = 8 ∧
    (receive (mkRxState 0 false) payloadWordCount).1 = RxOutcome.overrun 8 ∧
    (receive (mkRxState 0 false) payloadByteCount).1 = RxOutcome.overrun 32 ∧
    (receive (mkRxState 1 false) payloadByteCount).1 = RxOutcome.wouldBlock := by
  refine ⟨rfl, rfl, rfl, rfl⟩

/-- C2.  The claim states that `transmit` returns would-block iff all 3
mailboxes hold pending frames of priority greater than or equal to the new
frame's.  In the code, `has_pending_frame` masks TXBRP with the mailbox index
itself, so mailbox 0 (mask 0) never tests as pending, `is_available` always
accepts it, and `transmit` can never return would-block — in particular not in
the state where the queue is full, all three TXBRP bits are set, and every
stored frame has priority equal to the new frame's (rank 5): there the frame
is written into mailbox 0 instead. -/
theorem C2_transmit_never_would_blocks :
    (∀ (s : TxRegs) (id : IdReg), (transmit s id).isWouldBlock = false) ∧
    fullTxState.tfqf = true ∧
    fullTxState.trp = 7 ∧
    (fullTxState.headers Mailbox.m0).prio = 5 ∧
    transmit fullTxState { prio := 5 } = TransmitResult.accepted Mailbox.m0 none := by
  refine ⟨?_, rfl, rfl, rfl, rfl⟩
  intro s id
  cases hq : s.tfqf with
  | true =>
    simp [transmit, tx_queue_is_full, hq, is_available_m0,
      TransmitResult.isWouldBlock]
  | false =>
    cases hmb : Mailbox.new s.tfqpi <;>
      simp [transmit, tx_queue_is_full, hq, hmb, TransmitResult.isWouldBlock]

/-- C5.  The claim states that a mailbox holding a pending frame is only ever
overwritten by a frame of strictly higher bus-arbitration priority.  In the
state `fullTxState`, mailbox 0 holds a pending frame in the claim's sense (its
TXBRP bit, `trp & (1 << 0)`, is set) of priority rank 5, yet `transmit` with a
new frame of the same priority rank 5 overwrites mailbox 0 — because
`has_pending_frame` masks TXBRP with the mailbox index (0) instead of the
mailbox bit, so the equal-priority comparison is never reached. -/
theorem C5_equal_priority_mailbox_evicted :
    fullTxState.trp &&& (1 <<< Mailbox.toU8 Mailbox.m0) = 1 ∧
    (fullTxState.headers Mailbox.m0).prio = 5 ∧
    transmit fullTxState { prio := 5 } = TransmitResult.accepted Mailbox.m0 none := by
  refine ⟨rfl, rfl, rfl⟩

/-- C6 counterexample.  The claim states that `apply_config` writes every
field of `FdCanConfig` to its register, including the clock divider.  For the
snapshot `cfgX` (clock divider 1, automatic retransmit disabled) applied over
the reset registers, the CKDIV register still reads 0 afterwards (the clock
divider is never written), and CCCR.DAR reads false even though the
automatic-retransmit setter encodes `dar = !enabled = true` (the final
protocol-exception-handling step rewrites the whole CCCR register). -/
theorem C6_apply_config_omits_fields_cex :
    cfgX.clock_divider = 1 ∧
    (apply_config ctrl0 cfgX).regs.ckdiv = 0 ∧
    cfgX.automatic_retransmit = false ∧
    (apply_config ctrl0 cfgX).regs.cccr.dar = false := by
  refine ⟨rfl, rfl, rfl, rfl⟩

/-- C6 amended.  `leave_init_mode` re-applies the stored snapshot via
`apply_config` before clearing CCE and INIT, and `apply_config` applies, in
order, the data and nominal bit timing, automatic retransmit, transmit pause,
frame-transmission mode, interrupt-line routing, non-ISO mode, edge filtering
and protocol-exception handling — but it does not write the clock-divider or
timestamp-source registers, which keep their previous values, and because its
final step performs a full-register CCCR write, the CCCR it leaves behind is
the reset value with only PXHD taken from the snapshot. -/
theorem C6_apply_config_amended (c : Ctrl) (cfg : FdCanConfig) :
    (apply_config c cfg).regs.nbtp
      = { nbrp := cfg.nbtr.nbrp, ntseg1 := cfg.nbtr.ntseg1,
          ntseg2 := cfg.nbtr.ntseg2, nsjw := cfg.nbtr.nsjw } ∧
    (apply_config c cfg).regs.dbtp
      = { dbrp := cfg.dbtr.dbrp, dtseg1 := cfg.dbtr.dtseg1,
          dtseg2 := cfg.dbtr.dtseg2, dsjw := cfg.dbtr.dsjw } ∧
    (apply_config c cfg).regs.ils = cfg.interrupt_line_config ∧
    (apply_config c cfg).regs.cccr
      = { cccrReset with pxhd := cfg.protocol_exception_handling } ∧
    (apply_config c cfg).regs.ckdiv = c.regs.ckdiv ∧
    (apply_config c cfg).regs.tscc = c.regs.tscc ∧
    (apply_config c cfg).config
      = { cfg with clock_divider := c.config.clock_divider,
                   timestamp_source := c.config.timestamp_source } ∧
    (leave_init_mode c).regs.cccr.cce = false ∧
    (leave_init_mode c).regs.cccr.init = false ∧
    (leave_init_mode c).regs.ckdiv = c.regs.ckdiv ∧
    (leave_init_mode c).regs.tscc = c.regs.tscc := by
  refine ⟨?_, ?_, ?_, ?_, ?_, ?_, ?_, ?_, ?_, ?_, ?_⟩ <;>
    simp only [apply_config, leave_init_mode, set_data_bit_timing,
      set_nominal_bit_timing, set_automatic_retransmit, set_transmit_pause,
      set_frame_transmit, set_interrupt_line_config, set_non_iso_mode,
      set_edge_filtering, set_protocol_exception_handling]

/-- C7.  The claim states that each Config-mode setter writes exactly its own
hardware register field and snapshot field and leaves every other register
field unchanged.  On the handle `ctrlA` (CCCR with DAR and NISO set, TXP
clear): `set_transmit_pause true` flips DAR — the automatic-retransmit
setter's field — from true to false while leaving its own TXP field unwritten,
and `set_protocol_exception_handling true` clears NISO and DAR because it
rewrites the entire CCCR register. -/
theorem C7_setters_clobber_foreign_fields :
    ctrlA.regs.cccr.dar = true ∧
    (set_transmit_pause ctrlA true).regs.cccr.dar = false ∧
    ctrlA.regs.cccr.txp = false ∧
    (set_transmit_pause ctrlA true).regs.cccr.txp = false ∧
    ctrlA.regs.cccr.niso = true ∧
    (set_protocol_exception_handling ctrlA true).regs.cccr.niso = false ∧
    (set_protocol_exception_handling ctrlA true).regs.cccr.dar = false := by
  refine ⟨rfl, rfl, rfl, rfl, rfl, rfl, rfl⟩

/-- C8.  The claim states that the unimplemented operations (`set_test_mode`
as called by `into_test_mode`, and `clear_request_completed_flag`) surface an
explicit unsupported-error value instead of trapping execution.  Both bodies
are `todo!()`, which panics: in the model, all three evaluate to the trap
outcome, not to the `unsupportedError` value. -/
theorem C8_unimplemented_operations_trap :
    set_test_mode true = UnimplOutcome.trap ∧
    into_test_mode = UnimplOutcome.trap ∧
    clear_request_completed_flag = UnimplOutcome.trap := by
  refine ⟨rfl, rfl, rfl⟩

/-- C9.  The bit-timing field encoders are deterministic — each is a pure
function of the corresponding input field, as the characterization equations
on an arbitrary constructor input show — and mask-to-field-width encoding is
idempotent: re-applying a field's mask to the encoder's already-masked output
returns it unchanged, for every input. -/
theorem C9_bit_timing_encoders_idempotent :
    (∀ t : NominalBitTiming,
      t.nbrp &&& 0x1FF = t.nbrp ∧ t.ntseg1 &&& 0xFF = t.ntseg1 ∧
      t.ntseg2 &&& 0x7F = t.ntseg2 ∧ t.nsjw &&& 0x7F = t.nsjw) ∧
    (∀ d : DataBitTiming,
      d.dbrp &&& 0x1F = d.dbrp ∧ d.dtseg1 &&& 0x1F = d.dtseg1 ∧
      d.dtseg2 &&& 0x0F = d.dtseg2 ∧ d.dsjw &&& 0x0F = d.dsjw) ∧
    (∀ p a b j : Nat,
      NominalBitTiming.nbrp { prescaler := p, seg1 := a, seg2 := b, sync_jump_width := j }
        = p &&& 0x1FF ∧
      NominalBitTiming.ntseg1 { prescaler := p, seg1 := a, seg2 := b, sync_jump_width := j }
        = a &&& 0xFF ∧
      NominalBitTiming.ntseg2 { prescaler := p, seg1 := a, seg2 := b, sync_jump_width := j }
        = b &&& 0x7F ∧
      NominalBitTiming.nsjw { prescaler := p, seg1 := a, seg2 := b, sync_jump_width := j }
        = j &&& 0x7F) ∧
    (∀ (tdc : Bool) (p a b j : Nat),
      DataBitTiming.dbrp { transceiver_delay_compensation := tdc, prescaler := p,
                           seg1 := a, seg2 := b, sync_jump_width := j } = p &&& 0x1F ∧
      DataBitTiming.dtseg1 { transceiver_delay_compensation := tdc, prescaler := p,
                             seg1 := a, seg2 := b, sync_jump_width := j } = a &&& 0x1F ∧
      DataBitTiming.dtseg2 { transceiver_delay_compensation := tdc, prescaler := p,
                             seg1 := a, seg2 := b, sync_jump_width := j } = b &&& 0x0F ∧
      DataBitTiming.dsjw { transceiver_delay_compensation := tdc, prescaler := p,
                           seg1 := a, seg2 := b, sync_jump_width := j } = j &&& 0x0F) := by
  refine ⟨fun t => ⟨?_, ?_, ?_, ?_⟩, fun d => ⟨?_, ?_, ?_, ?_⟩,
    fun p a b j => ⟨rfl, rfl, rfl, rfl⟩, fun tdc p a b j => ⟨rfl, rfl, rfl, rfl⟩⟩ <;>
    apply and_mask_idem

/-- C10.  `Mailbox::new` masks its argument to the low two bits and returns
the mailbox of that index for masked values 0, 1 and 2, but hits the
`unreachable!()` trap for every argument whose low two bits are `0b11`; it is
fed raw hardware index bits by `get_rx_mailbox` and by the free-slot path of
`transmit`, so a hardware-reported index of 3 traps instead of returning a
value. -/
theorem C10_mailbox_new_masks_and_traps :
    (∀ idx : Nat,
      (idx &&& 0b11 = 0 → Mailbox.new idx = some Mailbox.m0) ∧
      (idx &&& 0b11 = 1 → Mailbox.new idx = some Mailbox.m1) ∧
      (idx &&& 0b11 = 2 → Mailbox.new idx = some Mailbox.m2) ∧
      (idx &&& 0b11 = 3 → Mailbox.new idx = none)) ∧
    (∀ s : RxState, s.getIndex &&& 0b11 = 3 → get_rx_mailbox s = none) ∧
    (∀ (s : TxRegs) (id : IdReg), s.tfqf = false → s.tfqpi &&& 0b11 = 3 →
      transmit s id = TransmitResult.trap) := by
  refine ⟨fun idx => ⟨mailbox_new_mask0 idx, mailbox_new_mask1 idx,
    mailbox_new_mask2 idx, mailbox_new_mask3 idx⟩, fun s h => ?_, fun s id hq h => ?_⟩
  · exact mailbox_new_mask3 _ h
  · simp [transmit, tx_queue_is_full, hq, mailbox_new_mask3 _ h]

/-- Witness for C10: the theorem applied at the concrete hardware index bits
4, 5, 6 and 7, at the receive state `rxGet3` and at the transmit state
`txPut3` (both reporting raw index 3). -/
theorem C10_mailbox_new_masks_and_traps_witness :
    Mailbox.new 4 = some Mailbox.m0 ∧
    Mailbox.new 5 = some Mailbox.m1 ∧
    Mailbox.new 6 = some Mailbox.m2 ∧
    Mailbox.new 7 = none ∧
    get_rx_mailbox rxGet3 = none ∧
    transmit txPut3 { prio := 5 } = TransmitResult.trap :=
  ⟨(C10_mailbox_new_masks_and_traps.1 4).1 (by decide),
   (C10_mailbox_new_masks_and_traps.1 5).2.1 (by decide),
   (C10_mailbox_new_masks_and_traps.1 6).2.2.1 (by decide),
   (C10_mailbox_new_masks_and_traps.1 7).2.2.2 (by decide),
   C10_mailbox_new_masks_and_traps.2.1 rxGet3 (by decide),
   C10_mailbox_new_masks_and_traps.2.2 txPut3 { prio := 5 } rfl (by decide)⟩

end FdcanModel
